import Mathlib

/-!
Verification development for the async request-state core of
`@owebeeone/grip-core` (design source: `GRIP_ASYNC_REQUEST_STATE.md`).

The TypeScript snippets of the design document are embedded shallowly:
pure functions become Lean functions, the per-destination mutable record
`DestState` becomes an explicit record threaded through each operation,
and side effects (publishing on grips, starting or aborting a fetch)
become an explicit list of `Effect` values returned alongside the new
record.  Timestamps are `Nat` milliseconds (`Int` where the source's
arithmetic may go negative); the injectable clock is passed as a `now`
argument, mirroring the `baseTime` parameter of `calculateRetryTime`.
-/

namespace GripAsync

/-- Error information carried by the `error` / `stale-with-error` variants
(the source stores a JavaScript `Error`; only its identity matters here). -/
structure ErrInfo where
  message : String
  deriving DecidableEq, Repr

/-- The six-variant `RequestState` tagged union from the source.  Every
variant carries the common `retryAt : number | null` field of
`RequestStateBase`. -/
inductive RequestState where
  | idle (retryAt : Option Nat)
  | loading (initiatedAt : Nat) (retryAt : Option Nat)
  | success (retrievedAt : Nat) (retryAt : Option Nat)
  | error (err : ErrInfo) (failedAt : Nat) (retryAt : Option Nat)
  | staleWhileRevalidate (retrievedAt : Nat) (refreshInitiatedAt : Nat) (retryAt : Option Nat)
  | staleWithError (retrievedAt : Nat) (err : ErrInfo) (failedAt : Nat) (retryAt : Option Nat)
  deriving DecidableEq, Repr

namespace RequestState

/-- The `retryAt` field common to every variant. -/
def retryAtOf : RequestState → Option Nat
  | idle r => r
  | loading _ r => r
  | success _ r => r
  | error _ _ r => r
  | staleWhileRevalidate _ _ r => r
  | staleWithError _ _ _ r => r

/-- The spread update `{ ...state, retryAt: t }` used throughout the source. -/
def setRetryAt : RequestState → Option Nat → RequestState
  | idle _, t => idle t
  | loading i _, t => loading i t
  | success r _, t => success r t
  | error e f _, t => error e f t
  | staleWhileRevalidate r i _, t => staleWhileRevalidate r i t
  | staleWithError r e f _, t => staleWithError r e f t

end RequestState

/-- Source helper `hasData`: data is available iff the state is `success`,
`stale-while-revalidate`, or `stale-with-error`. -/
def hasData : RequestState → Bool
  | .success _ _ => true
  | .staleWhileRevalidate _ _ _ => true
  | .staleWithError _ _ _ _ => true
  | _ => false

/-- Source helper `isLoading`: true iff the state is `loading`. -/
def isLoading : RequestState → Bool
  | .loading _ _ => true
  | _ => false

/-- Source helper `isRefreshingWithData`: true iff the state is
`stale-while-revalidate`. -/
def isRefreshingWithData : RequestState → Bool
  | .staleWhileRevalidate _ _ _ => true
  | _ => false

/-- The next-state computation when a new request is initiated on a
destination, per the source's Transition Rules: if cached data exists
(`success`/`stale-while-revalidate`/`stale-with-error`) the destination
enters `stale-while-revalidate` with `retrievedAt` preserved and
`refreshInitiatedAt = now`; otherwise it enters `loading(initiatedAt =
now)`.  Retry timers are cancelled on kickoff, so `retryAt` is null. -/
def initiateRequest (s : RequestState) (now : Nat) : RequestState :=
  match s with
  | .success retrievedAt _ => .staleWhileRevalidate retrievedAt now none
  | .staleWhileRevalidate retrievedAt _ _ => .staleWhileRevalidate retrievedAt now none
  | .staleWithError retrievedAt _ _ _ => .staleWhileRevalidate retrievedAt now none
  | .idle _ => .loading now none
  | .loading _ _ => .loading now none
  | .error _ _ _ => .loading now none

/-- `RetryConfig` from the source; every field is optional with the
documented defaults (3, 1000ms, 30000ms, 2). -/
structure RetryConfig where
  maxRetries : Option Nat := none
  initialDelayMs : Option Nat := none
  maxDelayMs : Option Nat := none
  backoffMultiplier : Option Nat := none
  deriving DecidableEq, Repr

/-- Source `calculateRetryTime`: null once `attempt` reaches `maxRetries`,
otherwise `baseTime + min(initialDelayMs * backoffMultiplier ^ attempt,
maxDelayMs)`. -/
def calculateRetryTime (attempt : Nat) (config : RetryConfig) (baseTime : Nat) : Option Nat :=
  if attempt ≥ config.maxRetries.getD 3 then
    none
  else
    let delay := min ((config.initialDelayMs.getD 1000) * (config.backoffMultiplier.getD 2) ^ attempt)
      (config.maxDelayMs.getD 30000)
    some (baseTime + delay)

/-- Source `calculateRefreshTime`: null when `ttlMs <= 0`; otherwise
`retrievedAt + ttlMs - refreshBeforeExpiryMs` when that lies in the
future, else null.  The source reads `Date.now()` internally; the clock
is injected as the `now` argument. -/
def calculateRefreshTime (retrievedAt ttlMs refreshBeforeExpiryMs now : Int) : Option Int :=
  if ttlMs ≤ 0 then
    none
  else
    let expiryTime := retrievedAt + ttlMs
    let refreshTime := expiryTime - refreshBeforeExpiryMs
    if refreshTime > now then some refreshTime else none

/-- Modelled from the spec: the call site that arms the TTL-refresh timer
is not shown as code in the source design document; per the spec, when a
success is published the refresh is scheduled only if the destination has
listeners, and not at all when `calculateRefreshTime` yields null. -/
def scheduleRefresh (hasListeners : Bool) (retrievedAt ttlMs refreshBeforeExpiryMs now : Int) :
    Option Int :=
  if hasListeners then
    calculateRefreshTime retrievedAt ttlMs refreshBeforeExpiryMs now
  else
    none

/-- One entry of the per-destination state-transition history
(`StateHistoryEntry` in the source). -/
structure HistoryEntry where
  state : RequestState
  timestamp : Nat
  requestKey : Option String
  transitionReason : Option String
  deriving DecidableEq, Repr

/-- An `AsyncTapController` value published on the controller grip.  The
live controller is a closure over the destination; the no-op controller
(`createNoOpController`) has four methods that do nothing.  Behaviour is
determined entirely by which of the two it is. -/
inductive Controller where
  | live
  | noop
  deriving DecidableEq, Repr

/-- Which grip a consumer (dis)connects through: an output grip from
`provides`, the state grip, or the controller grip. -/
inductive GripKind where
  | output
  | stateGrip
  | controllerGrip
  deriving DecidableEq, Repr

/-- Observable side effects of an operation, in order of occurrence:
publishing the state snapshot (`publishState`), publishing reset/default
values on the output grips, publishing a controller value on the
controller grip, starting a fetch (`kickoff` handing the request to the
fetcher), and aborting an in-flight request (`AbortController.abort`). -/
inductive Effect where
  | publishSnapshot
  | publishResets
  | publishController (c : Controller)
  | startFetch (force : Bool)
  | abortFetch
  deriving DecidableEq, Repr

/-- The per-destination `DestState` record from the source.  Timer
handles become booleans (armed or not), the `AbortController` for the
in-flight request becomes a boolean, and the `destinationRequestKeys`
weak-map entry for this destination becomes `registeredKey`.  The per-tap
aggregate `listenerCounts` map (per request key, across destinations) is
omitted: no claim concerns it. -/
structure DestState where
  currentState : RequestState
  requestKey : Option String
  registeredKey : Option String
  listenerCount : Nat
  retryAttempt : Nat
  retryTimer : Bool
  refreshTimer : Bool
  history : List HistoryEntry
  historySize : Nat
  controller : Option Controller
  abortController : Bool
  deriving DecidableEq, Repr

/-- Source `addHistoryEntry`: returns early when `historySize === 0`;
otherwise pushes an entry snapshotting the previous state, evicts the
oldest entry when capacity is exceeded, updates `currentState` to the
new state, and publishes the state snapshot. -/
def addHistoryEntry (st : DestState) (newState : RequestState) (reason : Option String)
    (now : Nat) : DestState × List Effect :=
  if st.historySize = 0 then
    (st, [])
  else
    let entry : HistoryEntry :=
      { state := st.currentState, timestamp := now,
        requestKey := st.requestKey, transitionReason := reason }
    let pushed := st.history ++ [entry]
    let trimmed := if pushed.length > st.historySize then pushed.tail else pushed
    ({ st with history := trimmed, currentState := newState }, [Effect.publishSnapshot])

/-- The internal `cancelRetry(dest)` method.  Its body is not shown in
the source; its call sites (`kickoff` and `onDisconnect` clear the
refresh timer separately right after calling it) imply it clears only
the retry timer. -/
def cancelRetryTimer (st : DestState) : DestState :=
  { st with retryTimer := false }

/-- Source `kickoff` (the shown synchronous part): abort any in-flight
request (recording `concurrent_request_aborted`), allocate a fresh abort
handle, cancel the pending retry and the TTL-refresh timer.  The elided
remainder (the state transition of the Transition Rules, modelled by
`initiateRequest`, and the asynchronous completion handling) is
represented by the `startFetch` effect handed to the fetcher. -/
def kickoff (st : DestState) (now : Nat) (forceRefetch : Bool) : DestState × List Effect :=
  let (st1, e1) :=
    if st.abortController then
      let (s, es) := addHistoryEntry st st.currentState (some "concurrent_request_aborted") now
      ({ s with abortController := false }, Effect.abortFetch :: es)
    else
      (st, [])
  let st2 := { st1 with abortController := true }
  let st3 := cancelRetryTimer st2
  let st4 := { st3 with refreshTimer := false }
  (st4, e1 ++ [Effect.startFetch forceRefetch])

/-- The `retry` method of the controller from `createController`: abort
the in-flight request, cancel the scheduled retry, increment
`retryAttempt`, and kick off a new request.  The no-op controller does
nothing. -/
def ctrlRetry : Controller → DestState → Nat → Bool → DestState × List Effect
  | .noop, st, _, _ => (st, [])
  | .live, st, now, force =>
    let (st1, e1) :=
      if st.abortController then ({ st with abortController := false }, [Effect.abortFetch])
      else (st, [])
    let st2 := cancelRetryTimer st1
    let st3 := { st2 with retryAttempt := st2.retryAttempt + 1 }
    let (st4, e2) := kickoff st3 now force
    (st4, e1 ++ e2)

/-- The `refresh` method of the controller from `createController`: both
branches of its data check kick off a new request without touching
`retryAttempt`.  The no-op controller does nothing. -/
def ctrlRefresh : Controller → DestState → Nat → Bool → DestState × List Effect
  | .noop, st, _, _ => (st, [])
  | .live, st, now, force =>
    if hasData st.currentState then kickoff st now force
    else kickoff st now force

/-- The `reset` method of the controller.  The internal `reset(dest)` it
dispatches to is not shown in the source; modelled from the spec: abort,
cancel timers, reset `retryAttempt`, return to `idle`, clear history,
publish.  The no-op controller does nothing. -/
def ctrlReset : Controller → DestState → DestState × List Effect
  | .noop, st => (st, [])
  | .live, st =>
    let (st1, e1) :=
      if st.abortController then ({ st with abortController := false }, [Effect.abortFetch])
      else (st, [])
    let st2 := { st1 with
      retryTimer := false, refreshTimer := false, retryAttempt := 0,
      currentState := RequestState.idle none, history := [] }
    (st2, e1 ++ [Effect.publishSnapshot])

/-- The `cancelRetry` method of the controller: dispatches to the
internal `cancelRetry(dest)`.  The no-op controller does nothing. -/
def ctrlCancelRetry : Controller → DestState → DestState × List Effect
  | .noop, st => (st, [])
  | .live, st => (cancelRetryTimer st, [])

/-- Source `publishController`: the value published on the controller
grip is `state.controller || createNoOpController()`. -/
def publishedController (st : DestState) : Controller :=
  st.controller.getD Controller.noop

/-- Source `onConnect(dest, grip)`: only an output-grip connection
increments `listenerCount` (and registers the current request key); a
live controller is created and published regardless of which grip
connected, when the controller grip is configured and none exists yet;
the state snapshot is always published.  `paramsKey` is the request key
computed from the destination params, if resolvable. -/
def onConnect (st : DestState) (g : GripKind) (paramsKey : Option String)
    (hasControllerGrip : Bool) : DestState × List Effect :=
  let st1 :=
    if g = GripKind.output then
      let s := { st with listenerCount := st.listenerCount + 1 }
      match paramsKey with
      | some k => { s with registeredKey := some k }
      | none => s
    else
      st
  let (st2, e1) :=
    if hasControllerGrip && st1.controller.isNone then
      let s := { st1 with controller := some Controller.live }
      (s, [Effect.publishController (publishedController s)])
    else
      (st1, [])
  (st2, e1 ++ [Effect.publishSnapshot])

/-- Source `onDisconnect(dest, grip)`: only an output-grip disconnection
decrements `listenerCount`; when the count reaches zero (and a request
key was registered) the retry and refresh timers are cancelled and
`retryAt` is cleared on the current state; when the count is zero and a
controller grip is configured, the stored controller is cleared and the
(now no-op) controller is republished; the state snapshot is always
published. -/
def onDisconnect (st : DestState) (g : GripKind) (hasControllerGrip : Bool) :
    DestState × List Effect :=
  if g = GripKind.output then
    let st1 := { st with listenerCount := st.listenerCount - 1 }
    let st2 :=
      match st1.registeredKey with
      | some _ =>
        if st1.listenerCount = 0 then
          let s := cancelRetryTimer st1
          let s := { s with refreshTimer := false }
          { s with currentState := s.currentState.setRetryAt none }
        else
          st1
      | none => st1
    let (st3, e1) :=
      if st2.listenerCount = 0 && hasControllerGrip then
        let s := { st2 with controller := none }
        (s, [Effect.publishController (publishedController s)])
      else
        (st2, [])
    (st3, e1 ++ [Effect.publishSnapshot])
  else
    (st, [Effect.publishSnapshot])

/-- Source `handleRequestKeyChange`: cancel the old key's timers, abort
any in-flight request (recording `request_key_changed_aborted`), reset
`retryAttempt` to 0, update the request key, append a
`request_key_changed` history entry; then either transition to `loading`
and kick off a request for the new key, or — when the new key is null —
publish reset values on the output grips (when the destination params
yield a non-empty reset map) and return to `idle`. -/
def handleRequestKeyChange (st : DestState) (oldKey : String) (newKey : Option String)
    (now : Nat) (paramsPresent resetsNonempty : Bool) : DestState × List Effect :=
  let st1 := { st with retryTimer := false, refreshTimer := false }
  let (st2, e1) :=
    if st1.abortController then
      let (s, es) := addHistoryEntry st1 st1.currentState (some "request_key_changed_aborted") now
      ({ s with abortController := false }, Effect.abortFetch :: es)
    else
      (st1, [])
  let st3 := { st2 with retryAttempt := 0 }
  let st4 := { st3 with requestKey := newKey }
  let (st5, e2) := addHistoryEntry st4 (st4.currentState.setRetryAt none)
    (some "request_key_changed") now
  match newKey with
  | some _ =>
    let (st6, e3) := addHistoryEntry st5 (RequestState.loading now none)
      (some "request_initiated") now
    let (st7, e4) := kickoff st6 now false
    (st7, e1 ++ e2 ++ e3 ++ e4)
  | none =>
    let eResets := if paramsPresent && resetsNonempty then [Effect.publishResets] else []
    let st6 := { st5 with currentState := RequestState.idle none }
    (st6, e1 ++ e2 ++ eResets ++ [Effect.publishSnapshot])

/-- Source `executeRetry`: when the retry timer fires with no listeners
left, clear the timer, null out `retryAt`, publish, and stop; when the
request key no longer matches, delegate to `handleRequestKeyChange`;
otherwise kick off with `forceRefetch = true`.  `currentKey` is the key
recomputed from the destination params at fire time; `paramsPresent` and
`resetsNonempty` are threaded to the key-change handler. -/
def executeRetry (st : DestState) (requestKey : String) (currentKey : Option String)
    (now : Nat) (paramsPresent resetsNonempty : Bool) : DestState × List Effect :=
  if st.listenerCount = 0 then
    let st1 := { st with
      retryTimer := false, currentState := st.currentState.setRetryAt none }
    (st1, [Effect.publishSnapshot])
  else if currentKey ≠ some requestKey then
    handleRequestKeyChange st requestKey currentKey now paramsPresent resetsNonempty
  else
    kickoff st now true

/-- Modelled from the spec: the retry-scheduling step is not shown as
code in the source design document, which notes only (in `executeRetry`)
that `retryAttempt` is incremented when the retry is scheduled, not when
the timer fires.  The delay is computed from the pre-increment attempt
counter via `calculateRetryTime`; when a time is produced the counter is
incremented, the timer armed and `retryAt` recorded, otherwise `retryAt`
is nulled. -/
def scheduleRetry (st : DestState) (config : RetryConfig) (now : Nat) : DestState :=
  match calculateRetryTime st.retryAttempt config now with
  | none => { st with currentState := st.currentState.setRetryAt none }
  | some t =>
    { st with
      retryAttempt := st.retryAttempt + 1, retryTimer := true,
      currentState := st.currentState.setRetryAt (some t) }

/-- Retry attempt counter is untouched by `addHistoryEntry`. -/
theorem addHistoryEntry_retryAttempt (st : DestState) (ns : RequestState)
    (r : Option String) (now : Nat) :
    (addHistoryEntry st ns r now).1.retryAttempt = st.retryAttempt := by
  by_cases h0 : st.historySize = 0 <;> simp [addHistoryEntry, h0]

/-- Request key is untouched by `addHistoryEntry`. -/
theorem addHistoryEntry_requestKey (st : DestState) (ns : RequestState)
    (r : Option String) (now : Nat) :
    (addHistoryEntry st ns r now).1.requestKey = st.requestKey := by
  by_cases h0 : st.historySize = 0 <;> simp [addHistoryEntry, h0]

/-- Timer flags are untouched by `addHistoryEntry`. -/
theorem addHistoryEntry_timers (st : DestState) (ns : RequestState)
    (r : Option String) (now : Nat) :
    (addHistoryEntry st ns r now).1.retryTimer = st.retryTimer ∧
      (addHistoryEntry st ns r now).1.refreshTimer = st.refreshTimer := by
  by_cases h0 : st.historySize = 0 <;> simp [addHistoryEntry, h0]

/-- The abort handle is untouched by `addHistoryEntry`. -/
theorem addHistoryEntry_abort (st : DestState) (ns : RequestState)
    (r : Option String) (now : Nat) :
    (addHistoryEntry st ns r now).1.abortController = st.abortController := by
  by_cases h0 : st.historySize = 0 <;> simp [addHistoryEntry, h0]

/-- When the buffer has room, `addHistoryEntry` appends exactly one entry
(no eviction) and performs the transition and the publish. -/
theorem addHistoryEntry_of_room (st : DestState) (ns : RequestState)
    (r : Option String) (now : Nat) (h : st.history.length < st.historySize) :
    addHistoryEntry st ns r now =
      ({ st with
         history := st.history ++
           [{ state := st.currentState, timestamp := now,
              requestKey := st.requestKey, transitionReason := r }],
         currentState := ns }, [Effect.publishSnapshot]) := by
  have h0 : ¬ st.historySize = 0 := by omega
  simp [addHistoryEntry, h0]
  intro h2
  exact absurd h (by omega)

/-- Retry attempt counter is untouched by `kickoff`. -/
theorem kickoff_retryAttempt (st : DestState) (now : Nat) (force : Bool) :
    (kickoff st now force).1.retryAttempt = st.retryAttempt := by
  cases hab : st.abortController <;>
    by_cases h0 : st.historySize = 0 <;>
      simp [kickoff, cancelRetryTimer, addHistoryEntry, hab, h0]

/-- Request key is untouched by `kickoff`. -/
theorem kickoff_requestKey (st : DestState) (now : Nat) (force : Bool) :
    (kickoff st now force).1.requestKey = st.requestKey := by
  cases hab : st.abortController <;>
    by_cases h0 : st.historySize = 0 <;>
      simp [kickoff, cancelRetryTimer, addHistoryEntry, hab, h0]

/-- History is untouched by `kickoff` when no request is in flight. -/
theorem kickoff_history_of_noInflight (st : DestState) (now : Nat) (force : Bool)
    (h : st.abortController = false) :
    (kickoff st now force).1.history = st.history := by
  simp [kickoff, cancelRetryTimer, h]

/-- Both timers are cleared by `kickoff`. -/
theorem kickoff_timers (st : DestState) (now : Nat) (force : Bool) :
    (kickoff st now force).1.retryTimer = false ∧
      (kickoff st now force).1.refreshTimer = false := by
  cases hab : st.abortController <;>
    by_cases h0 : st.historySize = 0 <;>
      simp [kickoff, cancelRetryTimer, addHistoryEntry, hab, h0]

end GripAsync

namespace GripAsync

/-- C1: if cached data exists for the current request key (state is
`success`, `stale-while-revalidate`, or `stale-with-error`) and a new
request is initiated, the resulting state is `stale-while-revalidate`
and never `loading`. -/
theorem noLoadingWithData (s : RequestState) (now : Nat) (h : hasData s = true) :
    isRefreshingWithData (initiateRequest s now) = true ∧
      isLoading (initiateRequest s now) = false := by
  cases s <;> simp_all [hasData, initiateRequest, isRefreshingWithData, isLoading]

/-- Witness for C1 at a concrete `success` state. -/
theorem noLoadingWithData_witness :
    hasData (RequestState.success 5 none) = true ∧
      isRefreshingWithData (initiateRequest (RequestState.success 5 none) 7) = true ∧
      isLoading (initiateRequest (RequestState.success 5 none) 7) = false := by
  refine ⟨by decide, ?_⟩
  exact noLoadingWithData (RequestState.success 5 none) 7 (by decide)

/-- C5: with `attempt < maxRetries` the scheduled time is
`baseTime + min(maxDelayMs, initialDelayMs * backoffMultiplier ^ attempt)`;
with `attempt ≥ maxRetries` (in particular `maxRetries = 0` on the first
failure) no retry time is produced. -/
theorem calculateRetryTime_spec (attempt : Nat) (config : RetryConfig) (baseTime : Nat) :
    (attempt < config.maxRetries.getD 3 →
      calculateRetryTime attempt config baseTime =
        some (baseTime + min (config.maxDelayMs.getD 30000)
          ((config.initialDelayMs.getD 1000) * (config.backoffMultiplier.getD 2) ^ attempt))) ∧
    (attempt ≥ config.maxRetries.getD 3 →
      calculateRetryTime attempt config baseTime = none) := by
  constructor
  · intro h
    simp [calculateRetryTime, Nat.not_le.mpr h, Nat.min_comm]
  · intro h
    simp [calculateRetryTime, h]

/-- Witness for C5: maxRetries 2, initialDelay 100, multiplier 2; attempt 1
schedules at base + 200, attempt 2 schedules nothing, and maxRetries 0
yields nothing already at attempt 0. -/
theorem calculateRetryTime_spec_witness :
    calculateRetryTime 1 ⟨some 2, some 100, some 30000, some 2⟩ 50 = some 250 ∧
      calculateRetryTime 2 ⟨some 2, some 100, some 30000, some 2⟩ 50 = none ∧
      calculateRetryTime 0 ⟨some 0, none, none, none⟩ 50 = none := by
  refine ⟨?_, ?_, ?_⟩
  · have h := (calculateRetryTime_spec 1 ⟨some 2, some 100, some 30000, some 2⟩ 50).1
      (by decide)
    simpa using h
  · exact (calculateRetryTime_spec 2 ⟨some 2, some 100, some 30000, some 2⟩ 50).2 (by decide)
  · exact (calculateRetryTime_spec 0 ⟨some 0, none, none, none⟩ 50).2 (by decide)

/-- C9: on a success publication with `cacheTtlMs > 0` and
`refreshBeforeExpiryMs ≥ 0` the TTL refresh time is
`retrievedAt + cacheTtlMs - refreshBeforeExpiryMs`; no refresh is
scheduled when that time is ≤ now, when `cacheTtlMs ≤ 0`, or when the
destination has no listeners. -/
theorem refreshTime_spec (retrievedAt ttlMs before now : Int)
    (hTtl : 0 < ttlMs) (hBefore : 0 ≤ before) :
    (retrievedAt + ttlMs - before > now →
      scheduleRefresh true retrievedAt ttlMs before now =
        some (retrievedAt + ttlMs - before)) ∧
    (retrievedAt + ttlMs - before ≤ now →
      ∀ hl : Bool, scheduleRefresh hl retrievedAt ttlMs before now = none) ∧
    (∀ ttl : Int, ttl ≤ 0 → ∀ hl : Bool,
      scheduleRefresh hl retrievedAt ttl before now = none) ∧
    scheduleRefresh false retrievedAt ttlMs before now = none := by
  refine ⟨?_, ?_, ?_, ?_⟩
  · intro h
    simp [scheduleRefresh, calculateRefreshTime, Int.not_le.mpr hTtl, h]
  · intro h hl
    cases hl <;>
      simp [scheduleRefresh, calculateRefreshTime, Int.not_le.mpr hTtl, Int.not_lt.mpr h]
  · intro ttl httl hl
    cases hl <;> simp [scheduleRefresh, calculateRefreshTime, httl]
  · simp [scheduleRefresh]

/-- Witness for C9: retrievedAt 0, ttl 1000, refresh margin 200: scheduled
at 800 when now = 0; nothing when now = 800, when ttl = 0, or when there
are no listeners. -/
theorem refreshTime_spec_witness :
    scheduleRefresh true 0 1000 200 0 = some 800 ∧
      scheduleRefresh true 0 1000 200 800 = none ∧
      scheduleRefresh true 0 0 200 0 = none ∧
      scheduleRefresh false 0 1000 200 0 = none := by
  have h := refreshTime_spec 0 1000 200 0 (by decide) (by decide)
  have h800 := refreshTime_spec 0 1000 200 800 (by decide) (by decide)
  refine ⟨?_, ?_, ?_, ?_⟩
  · have := h.1 (by decide)
    simpa using this
  · exact h800.2.1 (by decide) true
  · exact h.2.2.1 0 (by decide) true
  · exact h.2.2.2

/-- A destination in the `error` state with history disabled
(`historySize = 0`), about to complete a successful fetch. -/
def zeroHistoryDest : DestState :=
  { currentState := RequestState.error { message := "boom" } 5 none,
    requestKey := some "k", registeredKey := some "k", listenerCount := 1,
    retryAttempt := 0, retryTimer := false, refreshTimer := false,
    history := [], historySize := 0, controller := some Controller.live,
    abortController := false }

/-- C2: the claim says that with `historySize = 0` every transition still
updates `currentState` and emits a state snapshot, the history merely
staying empty.  The source `addHistoryEntry` instead returns before the
`currentState` update and the `publishState` call whenever
`historySize === 0`, so this transition leaves the destination stuck in
its previous state and publishes nothing — contradicting the design
document's own State Updates section (snapshots are published whenever a
state transition occurs) and its History Configuration note that
`historySize: 0` only disables history tracking. -/
theorem historySizeZero_skips_transition :
    addHistoryEntry zeroHistoryDest (RequestState.success 10 none)
        (some "fetch_success") 10 = (zeroHistoryDest, []) ∧
      zeroHistoryDest.currentState ≠ RequestState.success 10 none := by
  exact ⟨rfl, by decide⟩

/-- A destination with no listeners, no registered key and no controller,
not yet connected through any grip. -/
def freshDest : DestState :=
  { currentState := RequestState.idle none, requestKey := none, registeredKey := none,
    listenerCount := 0, retryAttempt := 0, retryTimer := false, refreshTimer := false,
    history := [], historySize := 10, controller := none, abortController := false }

/-- C3 counterexample: a destination that connects only through the
controller grip keeps `listenerCount = 0`, yet `onConnect` creates and
publishes a live controller (controller creation is independent of
listener counting in the source), so the controller published while
`listenerCount == 0` is not the no-op object. -/
theorem liveControllerPublishedWithoutListeners :
    (onConnect freshDest GripKind.controllerGrip none true).1.listenerCount = 0 ∧
      Effect.publishController Controller.live ∈
        (onConnect freshDest GripKind.controllerGrip none true).2 ∧
      Controller.live ≠ Controller.noop := by decide

/-- C3 (amended): when the last output-grip listener disconnects
(`listenerCount` drops to 0 via `onDisconnect` of an output grip), the
stored controller is cleared and the published controller is the no-op
object, all four of whose methods return silently without changing any
state or producing any effect; a destination connected only through
stateGrip or controllerGrip subscriptions instead receives a live
controller despite `listenerCount == 0`. -/
theorem noopControllerAfterLastListener (st : DestState) (h : st.listenerCount = 1) :
    (onDisconnect st GripKind.output true).1.controller = none ∧
      Effect.publishController Controller.noop ∈ (onDisconnect st GripKind.output true).2 ∧
      (∀ (s : DestState) (now : Nat) (f : Bool),
        ctrlRetry Controller.noop s now f = (s, []) ∧
          ctrlRefresh Controller.noop s now f = (s, []) ∧
          ctrlReset Controller.noop s = (s, []) ∧
          ctrlCancelRetry Controller.noop s = (s, [])) := by
  refine ⟨?_, ?_, fun s now f => ⟨rfl, rfl, rfl, rfl⟩⟩ <;>
    rcases hk : st.registeredKey with _ | k <;>
      simp [onDisconnect, publishedController, cancelRetryTimer, h, hk]

/-- A destination holding an error state with exactly one listener. -/
def lastListenerDest : DestState :=
  { currentState := RequestState.error { message := "e" } 5 (some 150),
    requestKey := some "A", registeredKey := some "A", listenerCount := 1,
    retryAttempt := 1, retryTimer := true, refreshTimer := false,
    history := [], historySize := 5, controller := some Controller.live,
    abortController := false }

/-- Witness for the amended C3 at a concrete one-listener destination. -/
theorem noopControllerAfterLastListener_witness :
    (onDisconnect lastListenerDest GripKind.output true).1.controller = none ∧
      Effect.publishController Controller.noop ∈
        (onDisconnect lastListenerDest GripKind.output true).2 ∧
      ctrlRetry Controller.noop lastListenerDest 5 false = (lastListenerDest, []) := by
  have h := noopControllerAfterLastListener lastListenerDest (by decide)
  exact ⟨h.1, h.2.1, (h.2.2 lastListenerDest 5 false).1⟩

/-- A destination whose retry timer is armed but whose listeners have all
gone away, with history enabled and empty. -/
def abandonedDest : DestState :=
  { currentState := RequestState.error { message := "e" } 5 (some 150),
    requestKey := some "A", registeredKey := some "A", listenerCount := 0,
    retryAttempt := 1, retryTimer := true, refreshTimer := false,
    history := [], historySize := 5, controller := none,
    abortController := false }

/-- C4 counterexample: when the scheduled retry fires on a zero-listener
destination, the source records no history entry at all on that path —
in particular no entry with reason listener_unsubscribed is added even
though none was present — contradicting the claim that one is recorded
if not already present (history is enabled, `historySize = 5`). -/
theorem executeRetryNoListenerHistorySilent :
    abandonedDest.history = [] ∧ abandonedDest.historySize = 5 ∧
      (executeRetry abandonedDest "A" (some "A") 150 true true).1.history = [] := by decide

/-- C4 (amended): when a scheduled retry fires on a destination whose
`listenerCount` is 0, no fetch is initiated and no request-key handling
runs: the retry timer is cleared, `retryAt` is set to null on the
(otherwise unchanged) current state, a state snapshot is published, and
nothing else — in particular no history entry is recorded. -/
theorem executeRetryNoListeners (st : DestState) (k : String) (ck : Option String)
    (now : Nat) (pp rn : Bool) (h : st.listenerCount = 0) :
    executeRetry st k ck now pp rn =
      ({ st with
         retryTimer := false, currentState := st.currentState.setRetryAt none },
       [Effect.publishSnapshot]) := by
  simp [executeRetry, h]

/-- Witness for the amended C4 at the concrete abandoned destination. -/
theorem executeRetryNoListeners_witness :
    executeRetry abandonedDest "A" (some "A") 150 true true =
      ({ abandonedDest with
         retryTimer := false,
         currentState := abandonedDest.currentState.setRetryAt none },
       [Effect.publishSnapshot]) :=
  executeRetryNoListeners abandonedDest "A" (some "A") 150 true true (by decide)

/-- C6: a manual controller retry increments `retryAttempt` by exactly
one before the new request is kicked off; a manual refresh leaves it
unchanged; for scheduled retries the counter is incremented at schedule
time (the schedule step, modelled from the spec) and not when the timer
fires (`executeRetry` kicks off without touching it). -/
theorem retryAttemptDiscipline :
    (∀ (st : DestState) (now : Nat) (force : Bool),
      (ctrlRetry Controller.live st now force).1.retryAttempt = st.retryAttempt + 1) ∧
      (∀ (st : DestState) (now : Nat) (force : Bool),
        (ctrlRefresh Controller.live st now force).1.retryAttempt = st.retryAttempt) ∧
      (∀ (st : DestState) (config : RetryConfig) (now t : Nat),
        calculateRetryTime st.retryAttempt config now = some t →
          (scheduleRetry st config now).retryAttempt = st.retryAttempt + 1) ∧
      (∀ (st : DestState) (k : String) (now : Nat) (pp rn : Bool),
        st.listenerCount ≠ 0 →
          (executeRetry st k (some k) now pp rn).1.retryAttempt = st.retryAttempt) := by
  refine ⟨?_, ?_, ?_, ?_⟩
  · intro st now force
    cases hab : st.abortController <;>
      simp [ctrlRetry, cancelRetryTimer, hab, kickoff_retryAttempt]
  · intro st now force
    by_cases hd : hasData st.currentState <;>
      simp [ctrlRefresh, hd, kickoff_retryAttempt]
  · intro st config now t h
    simp [scheduleRetry, h]
  · intro st k now pp rn h
    simp [executeRetry, h, kickoff_retryAttempt]

/-- A destination mid-backoff: one listener, two failed attempts, a
request in flight. -/
def retryingDest : DestState :=
  { currentState := RequestState.error { message := "e" } 250 none,
    requestKey := some "A", registeredKey := some "A", listenerCount := 1,
    retryAttempt := 2, retryTimer := false, refreshTimer := false,
    history := [], historySize := 10, controller := some Controller.live,
    abortController := true }

/-- Witness for C6 at a concrete destination with `retryAttempt = 2`:
retry moves it to 3, refresh keeps 2, scheduling moves it to 3 (delay
400ms, so the retry time 700 exists), timer execution keeps 2. -/
theorem retryAttemptDiscipline_witness :
    (ctrlRetry Controller.live retryingDest 300 false).1.retryAttempt =
        retryingDest.retryAttempt + 1 ∧
      (ctrlRefresh Controller.live retryingDest 300 false).1.retryAttempt =
        retryingDest.retryAttempt ∧
      (scheduleRetry retryingDest ⟨some 3, some 100, some 30000, some 2⟩ 300).retryAttempt =
        retryingDest.retryAttempt + 1 ∧
      (executeRetry retryingDest "A" (some "A") 300 true true).1.retryAttempt =
        retryingDest.retryAttempt := by
  have h := retryAttemptDiscipline
  exact ⟨h.1 retryingDest 300 false, h.2.1 retryingDest 300 false,
    h.2.2.1 retryingDest ⟨some 3, some 100, some 30000, some 2⟩ 300 700 (by decide),
    h.2.2.2 retryingDest "A" 300 true true (by decide)⟩

/-- The oldest entry of a full history ring, about to be evicted. -/
def initialEntry : HistoryEntry :=
  { state := RequestState.idle none, timestamp := 1, requestKey := none,
    transitionReason := some "initial" }

/-- A destination whose one-slot history ring is full when its request
key changes from A to B. -/
def fullHistoryDest : DestState :=
  { currentState := RequestState.success 5 none,
    requestKey := some "A", registeredKey := some "A", listenerCount := 1,
    retryAttempt := 2, retryTimer := false, refreshTimer := false,
    history := [initialEntry], historySize := 1, controller := some Controller.live,
    abortController := false }

/-- C7 counterexample: on a request-key change with the history ring at
capacity, the entries appended for the key change evict the oldest
previously accumulated entry, so not all previously accumulated history
entries are preserved. -/
theorem keyChangeEvictsOldestEntry :
    initialEntry ∈ fullHistoryDest.history ∧
      initialEntry ∉
        (handleRequestKeyChange fullHistoryDest "A" (some "B") 10 true true).1.history := by
  decide

/-- C7 (amended): on every request-key change, any in-flight request is
aborted, the retry and refresh timers are cancelled, `retryAttempt` is
reset to 0, `requestKey` is updated to the new key, and the history is
not cleared: the new entries are appended to the previously accumulated
ones — in particular, whenever the ring has room for the at most three
appended entries, every previous entry is preserved (only ring-buffer
eviction of the oldest entries can drop any, as the counterexample
shows). -/
theorem requestKeyChangeSpec (st : DestState) (oldKey : String) (newKey : Option String)
    (now : Nat) (pp rn : Bool) (hRoom : st.history.length + 3 ≤ st.historySize) :
    (st.abortController = true →
      Effect.abortFetch ∈ (handleRequestKeyChange st oldKey newKey now pp rn).2) ∧
      (handleRequestKeyChange st oldKey newKey now pp rn).1.retryTimer = false ∧
      (handleRequestKeyChange st oldKey newKey now pp rn).1.refreshTimer = false ∧
      (handleRequestKeyChange st oldKey newKey now pp rn).1.retryAttempt = 0 ∧
      (handleRequestKeyChange st oldKey newKey now pp rn).1.requestKey = newKey ∧
      ∃ appended, (handleRequestKeyChange st oldKey newKey now pp rn).1.history =
        st.history ++ appended := by
  have h0 : st.history.length < st.historySize := by omega
  have h1 : st.history.length + 1 < st.historySize := by omega
  have h2 : st.history.length + 1 + 1 < st.historySize := by omega
  cases hab : st.abortController <;> rcases newKey with _ | k <;>
    simp [handleRequestKeyChange, kickoff, cancelRetryTimer, hab,
      addHistoryEntry_of_room, h0, h1, h2]

/-- Witness for the amended C7: a destination with empty history and a
request in flight switches from key A to key B. -/
theorem requestKeyChangeSpec_witness :
    (retryingDest.abortController = true →
      Effect.abortFetch ∈ (handleRequestKeyChange retryingDest "A" (some "B") 300 true true).2) ∧
      (handleRequestKeyChange retryingDest "A" (some "B") 300 true true).1.retryTimer = false ∧
      (handleRequestKeyChange retryingDest "A" (some "B") 300 true true).1.refreshTimer = false ∧
      (handleRequestKeyChange retryingDest "A" (some "B") 300 true true).1.retryAttempt = 0 ∧
      (handleRequestKeyChange retryingDest "A" (some "B") 300 true true).1.requestKey =
        some "B" ∧
      ∃ appended, (handleRequestKeyChange retryingDest "A" (some "B") 300 true true).1.history =
        retryingDest.history ++ appended :=
  requestKeyChangeSpec retryingDest "A" (some "B") 300 true true (by decide)

/-- C8: when the request key resolves to null, the destination ends in
`idle` with `retryAt = null`, reset/default values are published on the
output grips, a state snapshot is published, both timers are clear, and
no fetch is started. -/
theorem nullKeyGoesIdle (st : DestState) (oldKey : String) (now : Nat) :
    (handleRequestKeyChange st oldKey none now true true).1.currentState =
        RequestState.idle none ∧
      (handleRequestKeyChange st oldKey none now true true).1.retryTimer = false ∧
      (handleRequestKeyChange st oldKey none now true true).1.refreshTimer = false ∧
      Effect.publishResets ∈ (handleRequestKeyChange st oldKey none now true true).2 ∧
      Effect.publishSnapshot ∈ (handleRequestKeyChange st oldKey none now true true).2 ∧
      ∀ f, Effect.startFetch f ∉ (handleRequestKeyChange st oldKey none now true true).2 := by
  cases hab : st.abortController <;>
    by_cases h0 : st.historySize = 0 <;>
      simp [handleRequestKeyChange, addHistoryEntry, cancelRetryTimer, hab, h0]

/-- Witness for C8 at a concrete destination whose params stop resolving
to a request key. -/
theorem nullKeyGoesIdle_witness :
    (handleRequestKeyChange retryingDest "A" none 300 true true).1.currentState =
        RequestState.idle none ∧
      Effect.publishResets ∈ (handleRequestKeyChange retryingDest "A" none 300 true true).2 ∧
      Effect.startFetch true ∉ (handleRequestKeyChange retryingDest "A" none 300 true true).2 := by
  have h := nullKeyGoesIdle retryingDest "A" 300
  exact ⟨h.1, h.2.2.2.1, h.2.2.2.2.2 true⟩

end GripAsync
